import Mathlib

/-!
Verification of the todo-ai-fullstack application.

The data model follows the TypeScript interfaces in the repository
(`Task`, `TaskCreate`, `TaskUpdate`, `AITaskSuggestion`), timestamps are
embedded as integers (milliseconds, as produced by `Date.getTime()`), and
the client-side list processing (`filteredTasks` in
frontend/src/app/tasks/page.tsx, `getAISuggestions` in
frontend/src/hooks/useTasks) is translated function by function.
The FastAPI backend route handlers are not part of the source tree
(only their README and callers are), so the server-side operations
(create, update, delete, get, the suggestion adapter) are modelled
from the spec, each marked as such in its doc comment.
-/

namespace TodoApp

/-- Task status, the union type of `Task.status` in frontend types
(`pending | in_progress | completed | cancelled`). -/
inductive TaskStatus
  | pending
  | in_progress
  | completed
  | cancelled
deriving DecidableEq, Repr

/-- The wire string of a status, as it appears in the TypeScript union and
the select options of the task form. -/
def TaskStatus.toWire : TaskStatus → String
  | .pending => "pending"
  | .in_progress => "in_progress"
  | .completed => "completed"
  | .cancelled => "cancelled"

/-- Parse a status string, inverse of `TaskStatus.toWire`; any other string
is not a valid status. -/
def parseStatus : String → Option TaskStatus
  | "pending" => some .pending
  | "in_progress" => some .in_progress
  | "completed" => some .completed
  | "cancelled" => some .cancelled
  | _ => none

/-- The `Task` interface of the frontend types: server-produced task record.
`deadline` is `string | null` in TypeScript; here an optional integer
timestamp. `is_overdue` and `priority_label` are derived fields the server
computes at read time. -/
structure Task where
  id : String
  title : String
  description : String
  category : String
  priority_score : Int
  deadline : Option Int
  status : TaskStatus
  ai_enhanced_description : String
  ai_suggested_tags : List String
  context_references : List String
  is_overdue : Bool
  priority_label : String
  created_at : Int
  updated_at : Int
deriving DecidableEq, Repr

/-- The `TaskCreate` interface: client payload for creating a task. `title`
is `Option` so that an absent required field can be represented; every other
field is optional in the TypeScript type. `status` travels as a plain
string. -/
structure TaskCreate where
  title : Option String := none
  description : Option String := none
  category : Option String := none
  priority_score : Option Int := none
  deadline : Option Int := none
  status : Option String := none
deriving DecidableEq, Repr

/-- The `TaskUpdate` interface: a partial payload; `none` means the field is
not supplied. `deadline` is doubly optional: supplying it can set the stored
deadline to null. -/
structure TaskUpdate where
  title : Option String := none
  description : Option String := none
  category : Option String := none
  priority_score : Option Int := none
  deadline : Option (Option Int) := none
  status : Option TaskStatus := none
  ai_enhanced_description : Option String := none
  ai_suggested_tags : Option (List String) := none
  context_references : Option (List String) := none
deriving DecidableEq, Repr

/-- Error taxonomy of the API layer (spec §7). -/
inductive ApiError
  | validationError
  | notFound
deriving DecidableEq, Repr

/-! ## Server-side CRUD operations (modelled from the spec) -/

/-- Modelled from the spec: the backend `create` route handler is not in the
source tree. Per §4.1, the server assigns id/created_at/updated_at, applies
the defaults priority_score=5 and status=pending, fails with ValidationError
on a missing (or empty, §3 requires non-empty) title or an out-of-range
priority, and per §8 never stores a status outside the fixed set (an
unknown status string is rejected). -/
def createTask (now : Int) (id : String) (c : TaskCreate) : Except ApiError Task :=
  match c.title with
  | none => .error .validationError
  | some t =>
    if t = "" then .error .validationError
    else
      if c.priority_score.getD 5 < 1 ∨ 10 < c.priority_score.getD 5 then
        .error .validationError
      else
        match parseStatus (c.status.getD "pending") with
        | none => .error .validationError
        | some st =>
          .ok { id := id
                title := t
                description := c.description.getD ""
                category := c.category.getD ""
                priority_score := c.priority_score.getD 5
                deadline := c.deadline
                status := st
                ai_enhanced_description := ""
                ai_suggested_tags := []
                context_references := []
                is_overdue := false
                priority_label := ""
                created_at := now
                updated_at := now }

/-- Modelled from the spec: the backend `update` route handler is not in the
source tree. Per §4.1, merge-patch semantics: each supplied field replaces
the stored one, every other field is kept, and updated_at is refreshed. -/
def updateTask (now : Int) (t : Task) (u : TaskUpdate) : Task :=
  { t with
    title := u.title.getD t.title
    description := u.description.getD t.description
    category := u.category.getD t.category
    priority_score := u.priority_score.getD t.priority_score
    deadline := u.deadline.getD t.deadline
    status := u.status.getD t.status
    ai_enhanced_description := u.ai_enhanced_description.getD t.ai_enhanced_description
    ai_suggested_tags := u.ai_suggested_tags.getD t.ai_suggested_tags
    context_references := u.context_references.getD t.context_references
    updated_at := now }

/-- Modelled from the spec: the backend `get` route handler is not in the
source tree. Per §4.1, `get(id)` fails with NotFound if the id is absent
from the store (embedded as a list of task records). -/
def getTask (store : List Task) (id : String) : Except ApiError Task :=
  match store.find? (fun t => t.id == id) with
  | some t => .ok t
  | none => .error .notFound

/-- Modelled from the spec: the backend `delete` route handler is not in the
source tree. Per §4.1, `delete(id)` removes the record when present and
fails with NotFound when the id is absent. -/
def deleteTask (store : List Task) (id : String) : Except ApiError (List Task) :=
  if store.any (fun t => t.id == id) then
    .ok (store.filter (fun t => !(t.id == id)))
  else
    .error .notFound

/-! ## Suggestion adapter (modelled from the spec) -/

/-- The `AITaskSuggestion` interface of the frontend types: the response
body of the ai-suggestions endpoint. -/
structure AITaskSuggestion where
  priority_score : Int
  suggested_deadline : Option Int
  enhanced_description : String
  suggested_category : String
  ai_suggested_tags : List String
  reasoning : String
  estimated_duration : String
  context_insights : List String
deriving DecidableEq, Repr

/-- The request body of the ai-suggestions endpoint, per the backend README
and `tasksApi.getAISuggestions` in frontend/src/lib/api.ts. -/
structure SuggestionRequest where
  title : String
  description : Option String := none
  category : Option String := none
  current_workload : Option Int := none
deriving DecidableEq, Repr

/-- What the external text-generation model may hand back after JSON
parsing: every field is untrusted and optional, the priority may be any
integer. -/
structure RawSuggestion where
  priority_score : Int
  suggested_deadline : Option Int
  enhanced_description : Option String
  suggested_category : Option String
  tags : Option (List String)
  reasoning : Option String
  estimated_duration : Option String
  context_insights : Option (List String)
deriving DecidableEq, Repr

/-- Outcome of the single outbound call to the external model: either its
parsed reply, or an error/timeout. -/
inductive ExternalOutcome
  | ok (raw : RawSuggestion)
  | failure
deriving DecidableEq, Repr

/-- Clamp an integer into `[lo, hi]`. -/
def clampInt (lo hi x : Int) : Int := max lo (min hi x)

/-- Modelled from the spec: the suggestion adapter source is not in the
source tree. Per §4.2, the deterministic local fallback used when the
external call errors or times out: priority 5, no suggested deadline,
description unchanged, every list empty. -/
def fallbackSuggestion (req : SuggestionRequest) : AITaskSuggestion :=
  { priority_score := 5
    suggested_deadline := none
    enhanced_description := req.description.getD ""
    suggested_category := req.category.getD ""
    ai_suggested_tags := []
    reasoning := ""
    estimated_duration := ""
    context_insights := [] }

/-- Modelled from the spec: the suggestion adapter source is not in the
source tree. Per §4.2 and §9, the model reply is normalized, never trusted
as-is: priority clamped into [1,10], missing enhanced description defaults
to the original description, tags coerced to a (possibly empty) list. -/
def normalizeSuggestion (req : SuggestionRequest) (raw : RawSuggestion) : AITaskSuggestion :=
  { priority_score := clampInt 1 10 raw.priority_score
    suggested_deadline := raw.suggested_deadline
    enhanced_description := raw.enhanced_description.getD (req.description.getD "")
    suggested_category := raw.suggested_category.getD (req.category.getD "")
    ai_suggested_tags := raw.tags.getD []
    reasoning := raw.reasoning.getD ""
    estimated_duration := raw.estimated_duration.getD ""
    context_insights := raw.context_insights.getD [] }

/-- Modelled from the spec: the ai-suggestions route handler is not in the
source tree. Per §4.2/§7, an external-model failure is swallowed and
replaced by the deterministic fallback — the endpoint answers with a
success body in every case, never an error. -/
def aiSuggestions (req : SuggestionRequest) (ext : ExternalOutcome) :
    Except ApiError AITaskSuggestion :=
  match ext with
  | .failure => .ok (fallbackSuggestion req)
  | .ok raw => .ok (normalizeSuggestion req raw)

/-! ## Derived overdue predicates (modelled from the spec) -/

/-- Modelled from the spec: the server code computing `is_overdue` is not in
the source tree. §3 defines `is_overdue` as "deadline in the past and status
not completed". -/
def isOverdueDataModel (now : Int) (t : Task) : Bool :=
  match t.deadline with
  | some d => d < now && t.status ≠ TaskStatus.completed
  | none => false

/-- Modelled from the spec: the statistics aggregation source is not in the
source tree. §4.3 counts a task as overdue when "deadline < now and status
not in \x7bcompleted, cancelled\x7d". -/
def isOverdueStatistics (now : Int) (t : Task) : Bool :=
  match t.deadline with
  | some d =>
    d < now && t.status ≠ TaskStatus.completed && t.status ≠ TaskStatus.cancelled
  | none => false

/-! ## Client-side list processing (from the frontend source) -/

/-- Predicate matchHere pat text: the pattern occurs at the very start of the text
(character-by-character comparison). -/
def matchHere : List Char → List Char → Bool
  | [], _ => true
  | _ :: _, [] => false
  | c :: cs, d :: ds => c == d && matchHere cs ds

/-- Predicate hasSub pat text: the pattern occurs somewhere in the text; embeds
JavaScript `String.includes`. -/
def hasSub (pat : List Char) : List Char → Bool
  | [] => matchHere pat []
  | c :: rest => matchHere pat (c :: rest) || hasSub pat rest

/-- Embedding of JavaScript s.includes(q) over Lean strings. -/
def strIncludes (s q : String) : Bool := hasSub q.data s.data

/-- Lower-casing, as `String.toLowerCase()`. -/
def strLower (s : String) : String := String.mk (s.data.map Char.toLower)

/-- The `filters` state of the tasks page: empty string means the filter is
not supplied, `overdue` is a checkbox. -/
structure TaskFilters where
  status : String := ""
  category : String := ""
  priority : String := ""
  overdue : Bool := false
deriving DecidableEq, Repr

/-- The filter predicate of `filteredTasks` in
frontend/src/app/tasks/page.tsx lines 43-66: search over title/description,
then status, category, priority (string-compared against
`priority_score.toString()`), and the overdue checkbox. -/
def matchesFilters (searchQuery : String) (f : TaskFilters) (t : Task) : Bool :=
  (if searchQuery ≠ "" then
    strIncludes (strLower t.title) (strLower searchQuery)
      || strIncludes (strLower t.description) (strLower searchQuery)
  else true)
  && (if f.status ≠ "" then t.status.toWire == f.status else true)
  && (if f.category ≠ "" then t.category == f.category else true)
  && (if f.priority ≠ "" then toString t.priority_score == f.priority else true)
  && (if f.overdue then t.is_overdue else true)

/-- String comparison standing in for `localeCompare`: negative, zero or
positive as the first string sorts before, equal to or after the second. -/
def strCmp (a b : String) : Int :=
  if a < b then -1 else if b < a then 1 else 0

/-- The sort comparator of `filteredTasks` in
frontend/src/app/tasks/page.tsx lines 69-85: priority descending, deadline
ascending with nulls last, title/status lexicographic, and by default
created_at descending. -/
def taskCmp (sortBy : String) (a b : Task) : Int :=
  if sortBy = "priority" then b.priority_score - a.priority_score
  else if sortBy = "deadline" then
    match a.deadline, b.deadline with
    | none, none => 0
    | none, some _ => 1
    | some _, none => -1
    | some da, some db => da - db
  else if sortBy = "title" then strCmp a.title b.title
  else if sortBy = "status" then strCmp a.status.toWire b.status.toWire
  else b.created_at - a.created_at

/-- Sorting by the comparator, as `filtered.sort(comparator)`. -/
def sortTasks (sortBy : String) (ts : List Task) : List Task :=
  ts.mergeSort (fun a b => taskCmp sortBy a b ≤ 0)

/-- The `filteredTasks` memo of frontend/src/app/tasks/page.tsx: filter by
search and the four optional filters, then sort by the selected key. -/
def filteredTasks (searchQuery : String) (f : TaskFilters) (sortBy : String)
    (ts : List Task) : List Task :=
  sortTasks sortBy ((ts.filter (matchesFilters searchQuery f)))

/-- The request body assembled by `getAISuggestions` in
frontend/src/hooks/useTasks (useContext.ts lines 154-168): the caller data
plus `current_workload` set to the number of loaded tasks whose status is
`pending`. -/
def clientAISuggestionRequest (tasks : List Task) (title : String)
    (description category : Option String) : SuggestionRequest :=
  { title := title
    description := description
    category := category
    current_workload :=
      some (Int.ofNat (tasks.filter (fun t => t.status == TaskStatus.pending)).length) }

/-! ## Sample records used by the witness theorems -/

/-- A concrete stored task used as a starting point for witnesses. -/
def sampleTask : Task :=
  { id := "t1"
    title := "Prepare presentation"
    description := "Slides for Monday"
    category := "Work"
    priority_score := 7
    deadline := some 100
    status := TaskStatus.pending
    ai_enhanced_description := ""
    ai_suggested_tags := ["work"]
    context_references := []
    is_overdue := false
    priority_label := "high"
    created_at := 10
    updated_at := 10 }

/-- A cancelled task whose deadline has already passed. -/
def cancelledLateTask : Task :=
  { sampleTask with id := "t9", status := TaskStatus.cancelled, deadline := some (-1) }

/-! ## Theorems -/

/-- C1: every Task record the create operation returns has priority_score in
the closed interval [1,10] and a status drawn from
\x7bpending, in_progress, completed, cancelled\x7d; an input requesting values
outside these sets is rejected, never stored out of range. -/
theorem create_task_invariants (now : Int) (id : String) (c : TaskCreate) (t : Task)
    (h : createTask now id c = .ok t) :
    (1 ≤ t.priority_score ∧ t.priority_score ≤ 10) ∧
    (t.status = TaskStatus.pending ∨ t.status = TaskStatus.in_progress ∨
      t.status = TaskStatus.completed ∨ t.status = TaskStatus.cancelled) := by
  obtain ⟨ttl, dsc, cat, pr, dl, stt⟩ := c
  cases ttl with
  | none => simp [createTask] at h
  | some s =>
    simp only [createTask] at h
    split at h
    · cases h
    · split at h
      · cases h
      · split at h
        · cases h
        · rename_i hr st hst
          injection h with h
          subst h
          refine ⟨⟨?_, ?_⟩, ?_⟩
          · simp only at hr ⊢
            omega
          · simp only at hr ⊢
            omega
          · cases st <;> simp

/-- Witness for C1 at the concrete input \x7btitle := "Prepare presentation"\x7d. -/
theorem create_task_invariants_witness :
    (1 ≤ (Task.mk "t1" "Prepare presentation" "" "" 5 none TaskStatus.pending "" [] [] false "" 0 0).priority_score ∧
      (Task.mk "t1" "Prepare presentation" "" "" 5 none TaskStatus.pending "" [] [] false "" 0 0).priority_score ≤ 10) ∧
    ((Task.mk "t1" "Prepare presentation" "" "" 5 none TaskStatus.pending "" [] [] false "" 0 0).status = TaskStatus.pending ∨
      (Task.mk "t1" "Prepare presentation" "" "" 5 none TaskStatus.pending "" [] [] false "" 0 0).status = TaskStatus.in_progress ∨
      (Task.mk "t1" "Prepare presentation" "" "" 5 none TaskStatus.pending "" [] [] false "" 0 0).status = TaskStatus.completed ∨
      (Task.mk "t1" "Prepare presentation" "" "" 5 none TaskStatus.pending "" [] [] false "" 0 0).status = TaskStatus.cancelled) :=
  create_task_invariants 0 "t1" { title := some "Prepare presentation" } _ rfl

/-- C7: a create input that supplies a (non-empty) title but omits
priority_score and status produces a Task with priority_score 5 and status
pending; create fails with ValidationError when the title is missing or the
supplied priority is out of range. -/
theorem create_defaults_and_validation (now : Int) (id : String) (c : TaskCreate) :
    (∀ s, c.title = some s → s ≠ "" → c.priority_score = none → c.status = none →
      ∃ t, createTask now id c = .ok t ∧
        t.priority_score = 5 ∧ t.status = TaskStatus.pending) ∧
    (c.title = none → createTask now id c = .error .validationError) ∧
    (∀ p, c.priority_score = some p → (p < 1 ∨ 10 < p) →
      createTask now id c = .error .validationError) := by
  obtain ⟨ttl, dsc, cat, pr, dl, stt⟩ := c
  refine ⟨?_, ?_, ?_⟩
  · intro s hs hne hp hst
    simp only at hs hp hst
    subst hs; subst hp; subst hst
    refine ⟨{ id := id, title := s, description := dsc.getD "", category := cat.getD "",
              priority_score := 5, deadline := dl, status := TaskStatus.pending,
              ai_enhanced_description := "", ai_suggested_tags := [],
              context_references := [], is_overdue := false, priority_label := "",
              created_at := now, updated_at := now }, ?_, rfl, rfl⟩
    simp [createTask, hne, parseStatus]
  · intro h
    simp only at h
    subst h
    simp [createTask]
  · intro p hp hrange
    simp only at hp
    subst hp
    cases ttl with
    | none => simp [createTask]
    | some s =>
      simp only [createTask, Option.getD_some]
      split_ifs with h1
      · rfl
      · rfl

/-- Witness for C7: creating with only a title yields priority 5 and status
pending, while a missing title and an out-of-range priority are rejected. -/
theorem create_defaults_and_validation_witness :
    (∃ t, createTask 0 "t1" { title := some "Prepare presentation" } = .ok t ∧
      t.priority_score = 5 ∧ t.status = TaskStatus.pending) ∧
    createTask 0 "t1" {} = .error .validationError ∧
    createTask 0 "t1" { title := some "x", priority_score := some 11 } =
      .error .validationError :=
  ⟨(create_defaults_and_validation 0 "t1" { title := some "Prepare presentation" }).1
      "Prepare presentation" rfl (by decide) rfl rfl,
    (create_defaults_and_validation 0 "t1" {}).2.1 rfl,
    (create_defaults_and_validation 0 "t1"
        { title := some "x", priority_score := some 11 }).2.2 11 rfl (by decide)⟩

/-- C2: the update operation has merge-patch semantics — every field not
supplied in the payload is identical in the post-update record to the
pre-update record, every supplied field takes the payload value, and
updated_at is refreshed (id and created_at are server-owned and never
change). -/
theorem update_task_frame (now : Int) (t : Task) (u : TaskUpdate) :
    (updateTask now t u).id = t.id ∧
    (updateTask now t u).created_at = t.created_at ∧
    (updateTask now t u).updated_at = now ∧
    (updateTask now t u).is_overdue = t.is_overdue ∧
    (updateTask now t u).priority_label = t.priority_label ∧
    ((u.title = none → (updateTask now t u).title = t.title) ∧
      ∀ v, u.title = some v → (updateTask now t u).title = v) ∧
    ((u.description = none → (updateTask now t u).description = t.description) ∧
      ∀ v, u.description = some v → (updateTask now t u).description = v) ∧
    ((u.category = none → (updateTask now t u).category = t.category) ∧
      ∀ v, u.category = some v → (updateTask now t u).category = v) ∧
    ((u.priority_score = none →
        (updateTask now t u).priority_score = t.priority_score) ∧
      ∀ v, u.priority_score = some v → (updateTask now t u).priority_score = v) ∧
    ((u.deadline = none → (updateTask now t u).deadline = t.deadline) ∧
      ∀ v, u.deadline = some v → (updateTask now t u).deadline = v) ∧
    ((u.status = none → (updateTask now t u).status = t.status) ∧
      ∀ v, u.status = some v → (updateTask now t u).status = v) ∧
    ((u.ai_enhanced_description = none →
        (updateTask now t u).ai_enhanced_description = t.ai_enhanced_description) ∧
      ∀ v, u.ai_enhanced_description = some v →
        (updateTask now t u).ai_enhanced_description = v) ∧
    ((u.ai_suggested_tags = none →
        (updateTask now t u).ai_suggested_tags = t.ai_suggested_tags) ∧
      ∀ v, u.ai_suggested_tags = some v →
        (updateTask now t u).ai_suggested_tags = v) ∧
    ((u.context_references = none →
        (updateTask now t u).context_references = t.context_references) ∧
      ∀ v, u.context_references = some v →
        (updateTask now t u).context_references = v) := by
  refine ⟨rfl, rfl, rfl, rfl, rfl, ?_, ?_, ?_, ?_, ?_, ?_, ?_, ?_, ?_⟩ <;>
    exact ⟨fun h => by simp [updateTask, h], fun v h => by simp [updateTask, h]⟩

/-- Witness for C2: updating the sample task with only a status change keeps
the description and deadline and sets the status and updated_at. -/
theorem update_task_frame_witness :
    (updateTask 99 sampleTask { status := some TaskStatus.completed }).description =
        sampleTask.description ∧
    (updateTask 99 sampleTask { status := some TaskStatus.completed }).deadline =
        sampleTask.deadline ∧
    (updateTask 99 sampleTask { status := some TaskStatus.completed }).status =
        TaskStatus.completed ∧
    (updateTask 99 sampleTask { status := some TaskStatus.completed }).updated_at = 99 :=
  have h := update_task_frame 99 sampleTask { status := some TaskStatus.completed }
  ⟨h.2.2.2.2.2.2.1.1 rfl, h.2.2.2.2.2.2.2.2.2.1.1 rfl,
    h.2.2.2.2.2.2.2.2.2.2.1.2 TaskStatus.completed rfl, h.2.2.1⟩

/-- C8: after a successful delete of an id, getting that id fails with
NotFound, and deleting it again also fails with NotFound. -/
theorem delete_then_get_not_found (store : List Task) (id : String) (rest : List Task)
    (h : deleteTask store id = .ok rest) :
    getTask rest id = .error .notFound ∧ deleteTask rest id = .error .notFound := by
  unfold deleteTask at h
  split at h
  · injection h with h
    subst h
    have hnone : ∀ x ∈ store.filter (fun t => !(t.id == id)), ¬(x.id == id) = true := by
      intro x hx
      have hmem := List.mem_filter.mp hx
      simpa using hmem.2
    constructor
    · unfold getTask
      rw [List.find?_eq_none.mpr hnone]
    · unfold deleteTask
      rw [if_neg]
      intro hany
      obtain ⟨x, hx, hxid⟩ := List.any_eq_true.mp hany
      exact hnone x hx hxid
  · cases h

/-- Witness for C8: deleting the sample task from a one-element store leaves
a store in which get and delete of its id fail with NotFound. -/
theorem delete_then_get_not_found_witness :
    getTask [] "t1" = .error .notFound ∧ deleteTask [] "t1" = .error .notFound :=
  delete_then_get_not_found [sampleTask] "t1" [] (by simp [deleteTask, sampleTask])

/-- C3: when the external model call errors or times out, ai-suggestions
still answers successfully with the deterministic fallback — priority_score
5, no suggested deadline, description unchanged — and in fact every outcome
of the external call yields a success response, never an error. -/
theorem ai_suggestions_failure_fallback (req : SuggestionRequest) :
    aiSuggestions req .failure = .ok (fallbackSuggestion req) ∧
    (fallbackSuggestion req).priority_score = 5 ∧
    (fallbackSuggestion req).suggested_deadline = none ∧
    (fallbackSuggestion req).enhanced_description = req.description.getD "" ∧
    ∀ ext, ∃ s, aiSuggestions req ext = .ok s := by
  refine ⟨rfl, rfl, rfl, rfl, fun ext => ?_⟩
  cases ext <;> exact ⟨_, rfl⟩

/-- C4: every response the suggestion adapter returns has priority_score in
[1,10] — an out-of-range model value is clamped to the nearest bound rather
than rejected — and ai_suggested_tags is a list, empty whenever the model
supplied none. -/
theorem adapter_priority_clamped (req : SuggestionRequest) (ext : ExternalOutcome)
    (s : AITaskSuggestion) (h : aiSuggestions req ext = .ok s) :
    (1 ≤ s.priority_score ∧ s.priority_score ≤ 10) ∧
    (∀ raw, ext = .ok raw → 10 < raw.priority_score → s.priority_score = 10) ∧
    (∀ raw, ext = .ok raw → raw.priority_score < 1 → s.priority_score = 1) ∧
    (∀ raw, ext = .ok raw → raw.tags = none → s.ai_suggested_tags = []) := by
  cases ext with
  | failure =>
    injection h with h
    subst h
    refine ⟨⟨by simp [fallbackSuggestion], by simp [fallbackSuggestion]⟩, ?_, ?_, ?_⟩ <;>
      exact fun raw hraw => by cases hraw
  | ok raw0 =>
    injection h with h
    subst h
    have hb : 1 ≤ clampInt 1 10 raw0.priority_score ∧ clampInt 1 10 raw0.priority_score ≤ 10 := by
      unfold clampInt
      constructor
      · exact le_max_left 1 _
      · exact max_le (by norm_num) (min_le_left 10 _)
    refine ⟨⟨hb.1, hb.2⟩, ?_, ?_, ?_⟩
    · intro raw hraw hgt
      injection hraw with hraw
      subst hraw
      simp only [normalizeSuggestion, clampInt]
      omega
    · intro raw hraw hlt
      injection hraw with hraw
      subst hraw
      simp only [normalizeSuggestion, clampInt]
      omega
    · intro raw hraw htags
      injection hraw with hraw
      subst hraw
      simp [normalizeSuggestion, htags]

/-- Witness for C4 at a model reply whose priority 42 is out of range and
whose tags are missing. -/
theorem adapter_priority_clamped_witness :
    (1 ≤ (normalizeSuggestion { title := "Prepare presentation" }
        { priority_score := 42, suggested_deadline := none,
          enhanced_description := none, suggested_category := none, tags := none,
          reasoning := none, estimated_duration := none,
          context_insights := none }).priority_score ∧
      (normalizeSuggestion { title := "Prepare presentation" }
        { priority_score := 42, suggested_deadline := none,
          enhanced_description := none, suggested_category := none, tags := none,
          reasoning := none, estimated_duration := none,
          context_insights := none }).priority_score ≤ 10) ∧
    (normalizeSuggestion { title := "Prepare presentation" }
        { priority_score := 42, suggested_deadline := none,
          enhanced_description := none, suggested_category := none, tags := none,
          reasoning := none, estimated_duration := none,
          context_insights := none }).priority_score = 10 ∧
    (normalizeSuggestion { title := "Prepare presentation" }
        { priority_score := 42, suggested_deadline := none,
          enhanced_description := none, suggested_category := none, tags := none,
          reasoning := none, estimated_duration := none,
          context_insights := none }).ai_suggested_tags = [] :=
  have h := adapter_priority_clamped { title := "Prepare presentation" }
    (.ok { priority_score := 42, suggested_deadline := none,
           enhanced_description := none, suggested_category := none, tags := none,
           reasoning := none, estimated_duration := none, context_insights := none })
    (normalizeSuggestion { title := "Prepare presentation" }
      { priority_score := 42, suggested_deadline := none,
        enhanced_description := none, suggested_category := none, tags := none,
        reasoning := none, estimated_duration := none, context_insights := none }) rfl
  ⟨h.1, h.2.1 _ rfl (by norm_num), h.2.2.2 _ rfl rfl⟩

/-- C5 counterexample: on a cancelled task whose deadline already passed,
the §3 data-model definition of is_overdue (status not completed) and the
§4.3 statistics predicate (status not in \x7bcompleted, cancelled\x7d) give
different answers, so they do not agree on every task. -/
theorem overdue_definitions_disagree :
    ¬ ∀ (now : Int) (t : Task), isOverdueDataModel now t = isOverdueStatistics now t :=
  fun hall => absurd (hall 0 cancelledLateTask) (by decide)

/-- C5 (amended): the §3 is_overdue definition and the §4.3 overdue-count
predicate agree on every task whose status is not cancelled; a cancelled
task with a past deadline is overdue under §3 but excluded from the §4.3
count. -/
theorem overdue_definitions_agree_unless_cancelled (now : Int) (t : Task)
    (h : t.status ≠ TaskStatus.cancelled) :
    isOverdueDataModel now t = isOverdueStatistics now t := by
  unfold isOverdueDataModel isOverdueStatistics
  cases t.deadline with
  | none => rfl
  | some d => simp [h]

/-- Witness for the amended C5 at the pending sample task. -/
theorem overdue_definitions_agree_witness :
    isOverdueDataModel 0 sampleTask = isOverdueStatistics 0 sampleTask :=
  overdue_definitions_agree_unless_cancelled 0 sampleTask (by decide)

/-- C10: the request assembled by the client's getAISuggestions helper
carries current_workload equal to the number of loaded tasks whose status is
pending, hence 0 when no loaded task is pending. -/
theorem client_workload_pending_count (tasks : List Task) (title : String)
    (description category : Option String) :
    (clientAISuggestionRequest tasks title description category).current_workload =
      some (Int.ofNat (tasks.countP fun t => t.status == TaskStatus.pending)) ∧
    ((∀ t ∈ tasks, t.status ≠ TaskStatus.pending) →
      (clientAISuggestionRequest tasks title description category).current_workload =
        some 0) := by
  constructor
  · simp [clientAISuggestionRequest, List.countP_eq_length_filter]
  · intro h
    have hnil : tasks.filter (fun t => t.status == TaskStatus.pending) = [] := by
      rw [List.filter_eq_nil_iff]
      intro a ha
      simp [h a ha]
    simp [clientAISuggestionRequest, hnil]

/-- Witness for C10: a list whose one task is completed yields
current_workload 0. -/
theorem client_workload_pending_count_witness :
    (clientAISuggestionRequest [{ sampleTask with status := TaskStatus.completed }]
        "Prepare presentation" none none).current_workload = some 0 :=
  (client_workload_pending_count [{ sampleTask with status := TaskStatus.completed }]
      "Prepare presentation" none none).2 (by decide)

/-- C6: the tasks page shows exactly the tasks that pass every supplied
predicate — membership in `filteredTasks` is equivalent to membership in
the loaded list together with the conjunction of the search, status,
category, priority and overdue conditions, each vacuous when its filter is
not supplied. -/
theorem filtered_tasks_exact (searchQuery : String) (f : TaskFilters) (sortBy : String)
    (ts : List Task) (t : Task) :
    t ∈ filteredTasks searchQuery f sortBy ts ↔
      t ∈ ts ∧
      (searchQuery = "" ∨
        strIncludes (strLower t.title) (strLower searchQuery) = true ∨
        strIncludes (strLower t.description) (strLower searchQuery) = true) ∧
      (f.status = "" ∨ t.status.toWire = f.status) ∧
      (f.category = "" ∨ t.category = f.category) ∧
      (f.priority = "" ∨ toString t.priority_score = f.priority) ∧
      (f.overdue = true → t.is_overdue = true) := by
  unfold filteredTasks sortTasks
  rw [List.mem_mergeSort, List.mem_filter]
  apply and_congr_right
  intro _
  simp only [matchesFilters, Bool.and_eq_true, Bool.or_eq_true, beq_iff_eq]
  by_cases h1 : searchQuery = "" <;> by_cases h2 : f.status = "" <;>
    by_cases h3 : f.category = "" <;> by_cases h4 : f.priority = "" <;>
    by_cases h5 : f.overdue = true <;>
    simp [h1, h2, h3, h4, h5] <;> tauto

/-- Reduction of the sort comparator at the deadline key. -/
theorem taskCmp_deadline_eq (a b : Task) :
    taskCmp "deadline" a b =
      match a.deadline, b.deadline with
      | none, none => 0
      | none, some _ => 1
      | some _, none => -1
      | some da, some db => da - db := rfl

/-- Reduction of the sort comparator at the priority key. -/
theorem taskCmp_priority_eq (a b : Task) :
    taskCmp "priority" a b = b.priority_score - a.priority_score := rfl

/-- Reduction of the sort comparator at the default key. -/
theorem taskCmp_created_eq (a b : Task) :
    taskCmp "created_at" a b = b.created_at - a.created_at := rfl

/-- C9: after the client sort, every pair in display order satisfies the
comparator's intent — with the deadline key, null deadlines come after all
non-null ones and non-null deadlines are non-decreasing; with the priority
key, priority_score is non-increasing; with the default key, created_at is
non-increasing. -/
theorem sort_tasks_order (ts : List Task) :
    ((sortTasks "deadline" ts).Pairwise fun a b =>
        (a.deadline = none → b.deadline = none) ∧
        ∀ da db, a.deadline = some da → b.deadline = some db → da ≤ db) ∧
    ((sortTasks "priority" ts).Pairwise fun a b =>
        b.priority_score ≤ a.priority_score) ∧
    ((sortTasks "created_at" ts).Pairwise fun a b =>
        b.created_at ≤ a.created_at) := by
  unfold sortTasks
  refine ⟨?_, ?_, ?_⟩
  · refine List.Pairwise.imp ?_ (List.sorted_mergeSort ?_ ?_ ts)
    · intro a b hab
      rcases hA : a.deadline with _ | da <;> rcases hB : b.deadline with _ | db <;>
        simp [taskCmp_deadline_eq, hA, hB] at hab ⊢ <;> omega
    · intro a b c hab hbc
      rcases hA : a.deadline with _ | da <;> rcases hB : b.deadline with _ | db <;>
        rcases hC : c.deadline with _ | dc <;>
        simp [taskCmp_deadline_eq, hA, hB, hC] at hab hbc ⊢ <;> omega
    · intro a b
      rcases hA : a.deadline with _ | da <;> rcases hB : b.deadline with _ | db <;>
        simp [taskCmp_deadline_eq, hA, hB] <;> omega
  · refine List.Pairwise.imp ?_ (List.sorted_mergeSort ?_ ?_ ts)
    · intro a b hab
      simp [taskCmp_priority_eq] at hab
      omega
    · intro a b c hab hbc
      simp [taskCmp_priority_eq] at hab hbc ⊢
      omega
    · intro a b
      simp [taskCmp_priority_eq]
      omega
  · refine List.Pairwise.imp ?_ (List.sorted_mergeSort ?_ ?_ ts)
    · intro a b hab
      simp [taskCmp_created_eq] at hab
      omega
    · intro a b c hab hbc
      simp [taskCmp_created_eq] at hab hbc ⊢
      omega
    · intro a b
      simp [taskCmp_created_eq]
      omega

end TodoApp
